import Mathlib

/-!
Shallow embedding of the hollypacas frontend (Login.vue, Home.vue,
Inventory.vue). Each Vue component method is translated to a pure
function from its data state and the backend response to the new data
state together with the list of observable effects it performs
(network requests, localStorage writes, router navigations), in the
order the code performs them.
-/

namespace HollyPacas

/-- JSON-like values appearing in request payloads and form fields. -/
inductive JVal where
  | null
  | str (s : String)
  | num (q : Rat)
  | bool (b : Bool)
deriving DecidableEq, Repr

/-- JavaScript truthiness of a JSON-like value (null, the empty string,
0 and false are falsy). -/
def JVal.truthy : JVal → Bool
  | .null => false
  | .str s => s != ""
  | .num q => q != 0
  | .bool b => b

/-- JavaScript a || b on JSON-like values. -/
def jsOr (a b : JVal) : JVal := if a.truthy then a else b

/-- Observable effects performed by the components: a network request
(method, url, Authorization header when one is set, JSON body when one
is sent), localStorage writes/removes, and router navigations. -/
inductive Event where
  | request (method url : String) (auth : Option String) (body : Option (List (String × JVal)))
  | setItem (key value : String)
  | removeItem (key : String)
  | navigate (path : String)
deriving DecidableEq, Repr

/-- The template literal Bearer header: localStorage.getItem returns
null when the key is absent, and the template stringifies it. -/
def bearerOf : Option String → String
  | some t => "Bearer " ++ t
  | none => "Bearer null"

/-! ## Login.vue -/

/-- The mutable data of the login form that the login() method touches. -/
structure LoginModel where
  email : String
  password : String
  remember : Bool
  error : Option String
deriving DecidableEq, Repr

def loginUrl : String := "http://127.0.0.1:8000/auth/login"

/-- The POST issued by login(): the JSON body holds exactly the email
and password fields. -/
def loginRequest (m : LoginModel) : Event :=
  .request "POST" loginUrl none
    (some [("email", .str m.email), ("password", .str m.password)])

/-- Outcome of the login fetch: a thrown network error, or a response
with its ok flag and (for ok responses) the parsed access_token. -/
inductive LoginResponse where
  | netError
  | response (ok : Bool) (access_token : String)
deriving DecidableEq, Repr

/-- Login.vue login(): POST credentials; on !res.ok set the error and
return; on ok store data.access_token and push /home; on a thrown
exception set the connection-error message. -/
def login (m : LoginModel) (resp : LoginResponse) : LoginModel × List Event :=
  match resp with
  | .netError => ({ m with error := some "Error de conexion" }, [loginRequest m])
  | .response ok tok =>
    if ok then
      (m, [loginRequest m, .setItem "token" tok, .navigate "/home"])
    else
      ({ m with error := some "Credenciales incorrectas" }, [loginRequest m])

/-! ## Home.vue -/

structure Branch where
  code : String
  name : String
deriving DecidableEq, Repr

/-- A role object of the profile response; the code reads role.name. -/
structure RoleEntry where
  name : String
deriving DecidableEq, Repr

/-- The /auth/me response body as the code reads it. An absent or empty
full_name is falsy in the JS disjunction, so the empty string models
both. -/
structure Profile where
  full_name : String
  email : String
  roles : List RoleEntry
  branches : List Branch
deriving DecidableEq, Repr

/-- Outcome of the /auth/me fetch: thrown network error, a !res.ok
response (the code throws on it), or an ok response with the profile. -/
inductive MeResponse where
  | netError
  | failure
  | success (data : Profile)
deriving DecidableEq, Repr

/-- The mutable data of Home.vue that mounted() touches. -/
structure HomeData where
  displayName : String
  role : Option String
  branches : List Branch
  activeBranch : Branch
  accessError : Option String
deriving DecidableEq, Repr

/-- Home.vue data(): initial values of the fields. -/
def initialHomeData : HomeData :=
  { displayName := "Usuario"
    role := none
    branches := []
    activeBranch := { code := "", name := "" }
    accessError := none }

def meUrl : String := "http://127.0.0.1:8000/auth/me"

def meRequest (token : String) : Event :=
  .request "GET" meUrl (some ("Bearer " ++ token)) none

/-- Home.vue computed canChooseBranch: the role is in the two-element
allowed list (this.role is null before mounted sets it, and
Array.includes(null) is false on this list). -/
def canChooseBranch (role : Option String) : Bool :=
  match role with
  | some r => ["administrador", "seguridad"].contains r
  | none => false

/-- Home.vue logout(): remove the token, navigate to /login. -/
def homeLogoutEvents : List Event := [.removeItem "token", .navigate "/login"]

/-- roleNames[0] || "usuario": the first mapped role name, with
undefined (no roles) and the empty string falling back to usuario. -/
def roleOfProfile (data : Profile) : String :=
  match (data.roles.map RoleEntry.name).head? with
  | some r => if r != "" then r else "usuario"
  | none => "usuario"

/-- data.branches && data.branches.length ? map : [central]. -/
def branchesOfProfile (data : Profile) : List Branch :=
  if data.branches.isEmpty then [{ code := "central", name := "Central" }]
  else data.branches.map (fun b => { code := b.code, name := b.name })

/-- The fields mounted() assigns on a successful profile response. -/
def homeSuccessData (data : Profile) : HomeData :=
  { displayName := if data.full_name != "" then data.full_name else data.email
    role := some (roleOfProfile data)
    branches := branchesOfProfile data
    activeBranch := (branchesOfProfile data).headD { code := "", name := "" }
    accessError := none }

/-- Home.vue mounted(): read the token; if absent push /login and
return. Otherwise fetch /auth/me; a thrown error or !res.ok lands in
the catch block, which sets the access error and calls logout(). On
success assign the profile-derived fields, then log out unless the
role is administrador. -/
def homeMounted (token : Option String) (resp : MeResponse) : HomeData × List Event :=
  match token with
  | none => (initialHomeData, [.navigate "/login"])
  | some t =>
    match resp with
    | .netError =>
        ({ initialHomeData with accessError := some "Sesion invalida" },
         meRequest t :: homeLogoutEvents)
    | .failure =>
        ({ initialHomeData with accessError := some "Sesion invalida" },
         meRequest t :: homeLogoutEvents)
    | .success data =>
        let d := homeSuccessData data
        if roleOfProfile data != "administrador" then
          ({ d with accessError := some "Acceso exclusivo para administradores" },
           meRequest t :: homeLogoutEvents)
        else
          (d, [meRequest t])

/-! ## Inventory.vue -/

/-- A linea catalog entry as fetched (also the nested producto.linea). -/
structure Linea where
  id : Nat
  cod_linea : String
  linea : String
deriving DecidableEq, Repr

/-- A segmento catalog entry as fetched (also producto.segmento). -/
structure Segmento where
  id : Nat
  segmento : String
deriving DecidableEq, Repr

/-- A product record as fetched, restricted to the fields the view
reads. An absent marca is falsy like the empty string, so the empty
string models both. -/
structure Product where
  id : Nat
  cod_producto : String
  descripcion : String
  linea : Option Linea
  segmento : Option Segmento
  marca : String
  activo : Bool
deriving DecidableEq, Repr

/-- Leading-run test on character lists: the first list is an initial
run of the second. -/
def leadMatch : List Char → List Char → Bool
  | [], _ => true
  | _ :: _, [] => false
  | a :: as, b :: bs => a == b && leadMatch as bs

/-- Contiguous-substring test on character lists. -/
def hasSeg (needle : List Char) : List Char → Bool
  | [] => needle.isEmpty
  | b :: bs => leadMatch needle (b :: bs) || hasSeg needle bs

/-- JavaScript String.includes: hay contains needle contiguously. -/
def strContainsSub (hay needle : String) : Bool :=
  hasSeg needle.data hay.data

/-- JavaScript toLowerCase, character by character. -/
def lowerStr (s : String) : String := String.mk (s.data.map Char.toLower)

/-- A whitespace character as JavaScript trim removes it (the usual
ASCII whitespace; the strings handled here contain no exotic
whitespace). -/
def isWsChar (c : Char) : Bool :=
  c == ' ' || c == '\t' || c == '\n' || c == '\r'

/-- JavaScript String.trim: drop whitespace from both ends. -/
def trimStr (s : String) : String :=
  String.mk ((((s.data.dropWhile isWsChar).reverse).dropWhile isWsChar).reverse)

/-- The five candidate values of filteredProducts, in code order;
none models undefined optional chaining results. -/
def productValues (p : Product) : List (Option String) :=
  [some p.cod_producto, some p.descripcion, p.linea.map Linea.linea,
   p.segmento.map Segmento.segmento, some p.marca]

/-- The values.filter(Boolean).join(" ").toLowerCase() string that a
product is matched against: undefined and empty entries dropped,
joined with single spaces, lowercased. -/
def joinValues (p : Product) : String :=
  lowerStr (String.intercalate " "
    (((productValues p).filterMap id).filter (fun s => s != "")))

/-- Inventory.vue computed filteredProducts: the query is the trimmed,
lowercased search box; an empty query returns the list unchanged,
otherwise keep the products whose joined value string contains the
query. -/
def filteredProducts (products : List Product) (search : String) : List Product :=
  if lowerStr (trimStr search) = "" then products
  else products.filter (fun p => strContainsSub (joinValues p) (lowerStr (trimStr search)))

/-- The predicate filteredProducts actually keeps products by, with
the empty query matching everything. -/
def codeMatchQuery (query : String) (p : Product) : Bool :=
  query == "" || strContainsSub (joinValues p) query

/-- Modelled from the spec: a product matches a query when its code,
description, line name, segment name, or brand (missing fields
skipped) contains the query case-insensitively — each field tested on
its own. Used to compare the spec reading of the filter with the
code, which tests the space-joined concatenation instead. -/
def fieldMatchQuery (query : String) (p : Product) : Bool :=
  ((productValues p).filterMap id).any
    (fun s => strContainsSub (lowerStr s) (lowerStr query))

/-- The product form data of Inventory.vue. The linea_id and
segmento_id selections hold the empty string or a numeric id, so they
are kept as JSON values. -/
structure ProductForm where
  cod_producto : String
  descripcion : String
  linea_id : JVal
  segmento_id : JVal
  marca : String
  referencia_producto : String
  precio_venta1 : Rat
  precio_venta2 : Rat
  precio_venta3 : Rat
  costo_producto : Rat
  existencia : Rat
  activo : Bool
deriving DecidableEq, Repr

/-- The form defaults from data(), also assigned by resetForm(). -/
def emptyProductForm : ProductForm :=
  { cod_producto := ""
    descripcion := ""
    linea_id := .str ""
    segmento_id := .str ""
    marca := ""
    referencia_producto := ""
    precio_venta1 := 0
    precio_venta2 := 0
    precio_venta3 := 0
    costo_producto := 0
    existencia := 0
    activo := true }

structure LineaForm where
  cod_linea : String
  linea : String
  activo : Bool
deriving DecidableEq, Repr

structure SegmentoForm where
  segmento : String
deriving DecidableEq, Repr

/-- The mutable data of Inventory.vue. -/
structure InvState where
  products : List Product
  lineas : List Linea
  segmentos : List Segmento
  includeInactive : Bool
  isEditing : Bool
  editingId : Option Nat
  search : String
  lineaForm : LineaForm
  segmentoForm : SegmentoForm
  form : ProductForm
deriving DecidableEq, Repr

/-- Inventory.vue data(): initial values. -/
def initialInvState : InvState :=
  { products := []
    lineas := []
    segmentos := []
    includeInactive := false
    isEditing := false
    editingId := none
    search := ""
    lineaForm := { cod_linea := "", linea := "", activo := true }
    segmentoForm := { segmento := "" }
    form := emptyProductForm }

def catalogsUrl : String := "http://127.0.0.1:8000/inventory/catalogs"

def productsBaseUrl : String := "http://127.0.0.1:8000/inventory/products"

def lineasUrl : String := "http://127.0.0.1:8000/inventory/lineas"

def segmentosUrl : String := "http://127.0.0.1:8000/inventory/segmentos"

def catalogsRequest (token : Option String) : Event :=
  .request "GET" catalogsUrl (some (bearerOf token)) none

/-- The products list url with the stringified include_inactive flag. -/
def productsListUrl (includeInactive : Bool) : String :=
  productsBaseUrl ++ "?include_inactive=" ++ (if includeInactive then "true" else "false")

def productsRequest (token : Option String) (includeInactive : Bool) : Event :=
  .request "GET" (productsListUrl includeInactive) (some (bearerOf token)) none

/-- The /inventory/catalogs response body as the code reads it. -/
structure CatalogsData where
  lineas : List Linea
  segmentos : List Segmento
deriving DecidableEq, Repr

/-- Inventory.vue fetchCatalogs(): GET the catalogs; only on res.ok
(modelled as some data) assign lineas and segmentos. -/
def fetchCatalogs (token : Option String) (st : InvState)
    (resp : Option CatalogsData) : InvState × List Event :=
  (match resp with
   | some data => { st with lineas := data.lineas, segmentos := data.segmentos }
   | none => st,
   [catalogsRequest token])

/-- Inventory.vue fetchProducts(): GET the product list with the
include_inactive flag; only on res.ok assign products. -/
def fetchProducts (token : Option String) (st : InvState)
    (resp : Option (List Product)) : InvState × List Event :=
  (match resp with
   | some ps => { st with products := ps }
   | none => st,
   [productsRequest token st.includeInactive])

/-- Inventory.vue mounted(): await fetchCatalogs, then await
fetchProducts. There is no token check and no navigation. -/
def inventoryMounted (token : Option String) (st : InvState)
    (catResp : Option CatalogsData) (prodResp : Option (List Product)) :
    InvState × List Event :=
  let r1 := fetchCatalogs token st catResp
  let r2 := fetchProducts token r1.1 prodResp
  (r2.1, r1.2 ++ r2.2)

/-- The saveProduct() payload: a spread of the form in field order,
with falsy linea_id and segmento_id replaced by null, and, when
editing, the cod_producto entry deleted. -/
def saveProductPayload (st : InvState) : List (String × JVal) :=
  let base : List (String × JVal) :=
    [("cod_producto", .str st.form.cod_producto),
     ("descripcion", .str st.form.descripcion),
     ("linea_id", jsOr st.form.linea_id .null),
     ("segmento_id", jsOr st.form.segmento_id .null),
     ("marca", .str st.form.marca),
     ("referencia_producto", .str st.form.referencia_producto),
     ("precio_venta1", .num st.form.precio_venta1),
     ("precio_venta2", .num st.form.precio_venta2),
     ("precio_venta3", .num st.form.precio_venta3),
     ("costo_producto", .num st.form.costo_producto),
     ("existencia", .num st.form.existencia),
     ("activo", .bool st.form.activo)]
  if st.isEditing then base.filter (fun kv => kv.1 != "cod_producto") else base

/-- The template literal over this.editingId (null stringifies). -/
def editingIdText : Option Nat → String
  | some i => toString i
  | none => "null"

def saveProductUrl (st : InvState) : String :=
  if st.isEditing then productsBaseUrl ++ "/" ++ editingIdText st.editingId
  else productsBaseUrl

def saveProductMethod (st : InvState) : String :=
  if st.isEditing then "PUT" else "POST"

def saveProductRequest (token : Option String) (st : InvState) : Event :=
  .request (saveProductMethod st) (saveProductUrl st)
    (some (bearerOf token)) (some (saveProductPayload st))

/-- Inventory.vue resetForm(). -/
def resetForm (st : InvState) : InvState :=
  { st with isEditing := false, editingId := none, form := emptyProductForm }

/-- Inventory.vue saveProduct(): issue the create or update request;
only on res.ok refetch the products (with its own response) and reset
the form. A failed save changes nothing and surfaces nothing. -/
def saveProduct (token : Option String) (st : InvState) (ok : Bool)
    (fetchResp : Option (List Product)) : InvState × List Event :=
  let req := saveProductRequest token st
  if ok then
    let r := fetchProducts token st fetchResp
    (resetForm r.1, req :: r.2)
  else
    (st, [req])

def deactivateRequest (token : Option String) (p : Product) : Event :=
  .request "PATCH" (productsBaseUrl ++ "/" ++ toString p.id ++ "/deactivate")
    (some (bearerOf token)) none

/-- Inventory.vue deactivateProduct(): PATCH the deactivate endpoint —
the response (the ok argument) is never inspected — then always
refetch the products. The form and edit mode are not touched. -/
def deactivateProduct (token : Option String) (st : InvState) (p : Product)
    (ok : Bool) (fetchResp : Option (List Product)) : InvState × List Event :=
  let r := fetchProducts token st fetchResp
  (r.1, deactivateRequest token p :: r.2)

def lineaPayload (f : LineaForm) : List (String × JVal) :=
  [("cod_linea", .str f.cod_linea), ("linea", .str f.linea), ("activo", .bool f.activo)]

/-- Inventory.vue saveLinea(): POST the linea form; only on res.ok
refetch the catalogs and reset the linea form. -/
def saveLinea (token : Option String) (st : InvState) (ok : Bool)
    (catResp : Option CatalogsData) : InvState × List Event :=
  let req : Event := .request "POST" lineasUrl (some (bearerOf token))
    (some (lineaPayload st.lineaForm))
  if ok then
    let r := fetchCatalogs token st catResp
    ({ r.1 with lineaForm := { cod_linea := "", linea := "", activo := true } }, req :: r.2)
  else
    (st, [req])

def segmentoPayload (f : SegmentoForm) : List (String × JVal) :=
  [("segmento", .str f.segmento)]

/-- Inventory.vue saveSegmento(): POST the segmento form; only on
res.ok refetch the catalogs and reset the segmento form. -/
def saveSegmento (token : Option String) (st : InvState) (ok : Bool)
    (catResp : Option CatalogsData) : InvState × List Event :=
  let req : Event := .request "POST" segmentosUrl (some (bearerOf token))
    (some (segmentoPayload st.segmentoForm))
  if ok then
    let r := fetchCatalogs token st catResp
    ({ r.1 with segmentoForm := { segmento := "" } }, req :: r.2)
  else
    (st, [req])

/-! ## Shared concrete examples -/

/-- A concrete product with no line, no segment and no brand. -/
def exProduct : Product :=
  { id := 7, cod_producto := "ab", descripcion := "cd",
    linea := none, segmento := none, marca := "", activo := true }

/-- A concrete Inventory state in edit mode for record 5, with a
partially filled form. -/
def exEditState : InvState :=
  { initialInvState with
    isEditing := true
    editingId := some 5
    form := { emptyProductForm with cod_producto := "P1", descripcion := "Paca" } }

/-- A concrete profile whose first role name is administrador. -/
def adminProfile : Profile :=
  { full_name := "Ana", email := "ana@hp.example",
    roles := [{ name := "administrador" }], branches := [] }

/-! ## Claims -/

/-- Claim C1, counterexample: with no stored token, Inventory.vue
mounted() issues the catalogs and products requests (with a Bearer
null header) and never navigates to /login, refuting the claim that
every protected view redirects to login before any network call. -/
theorem C1_no_token_inventory_still_fetches :
    (inventoryMounted none initialInvState none none).2 =
      [catalogsRequest none, productsRequest none false] ∧
    Event.navigate "/login" ∉ (inventoryMounted none initialInvState none none).2 := by
  refine ⟨rfl, ?_⟩
  decide

/-- Claim C1, amended: with no stored token the Home view navigates to
/login as its only effect and leaves its data at the initial values,
whatever the backend would answer; the Inventory view performs no
token check and issues the catalogs and products requests
unconditionally, never navigating to login. -/
theorem C1_amended_home_guard_only (resp : MeResponse) (st : InvState)
    (c : Option CatalogsData) (pr : Option (List Product)) :
    (homeMounted none resp).2 = [Event.navigate "/login"] ∧
    (homeMounted none resp).1 = initialHomeData ∧
    (inventoryMounted none st c pr).2 =
      [catalogsRequest none, productsRequest none st.includeInactive] := by
  refine ⟨rfl, rfl, ?_⟩
  cases c <;> cases pr <;> rfl

/-- Claim C2: whenever /auth/me answers a stored token with a
non-success response, and whenever that call fails on the network,
Home.vue removes the token from local storage and navigates to the
login route. -/
theorem C2_rejected_token_cleared (t : String) :
    (homeMounted (some t) .failure).2 =
      [meRequest t, .removeItem "token", .navigate "/login"] ∧
    (homeMounted (some t) .netError).2 =
      [meRequest t, .removeItem "token", .navigate "/login"] :=
  ⟨rfl, rfl⟩

/-- Claim C4, counterexample: after a successful deactivate call made
from edit mode, the form is not reset: isEditing stays true and the
code field keeps its value, refuting the claim that every successful
deactivate resets the form to create mode. -/
theorem C4_deactivate_leaves_edit_mode :
    (deactivateProduct (some "tok") exEditState exProduct true (some [])).1.isEditing = true ∧
    (deactivateProduct (some "tok") exEditState exProduct true
      (some [])).1.form.cod_producto = "P1" :=
  ⟨rfl, rfl⟩

/-- Claim C4, amended: after a successful create or update the view
refetches the product collection and resets the form to create mode
with every field at its default (isEditing false, editingId null, the
reset form literal), and a successful refetch installs the fetched
list; after a deactivate call — whose response the code ignores — the
collection is refetched but the form and edit mode are left
unchanged. -/
theorem C4_amended_refetch_and_reset (token : Option String) (st : InvState)
    (fr : Option (List Product)) (ps : List Product) (p : Product) (d : Bool) :
    (saveProduct token st true fr).1.isEditing = false ∧
    (saveProduct token st true fr).1.editingId = none ∧
    (saveProduct token st true fr).1.form = emptyProductForm ∧
    (saveProduct token st true fr).2 =
      [saveProductRequest token st, productsRequest token st.includeInactive] ∧
    (saveProduct token st true (some ps)).1.products = ps ∧
    (deactivateProduct token st p d fr).2 =
      [deactivateRequest token p, productsRequest token st.includeInactive] ∧
    (deactivateProduct token st p d fr).1.form = st.form ∧
    (deactivateProduct token st p d fr).1.isEditing = st.isEditing ∧
    (deactivateProduct token st p d fr).1.editingId = st.editingId := by
  refine ⟨?_, ?_, ?_, ?_, rfl, ?_, ?_, ?_, ?_⟩ <;> cases fr <;> rfl

/-- Claim C5: a non-success login response sets the invalid-credentials
message and performs no navigation and no token write; a thrown
network exception sets the connection-error message; a success
response stores the returned access_token and navigates to /home. -/
theorem C5_login_outcomes (m : LoginModel) (tok : String) :
    login m (.response false tok) =
      ({ m with error := some "Credenciales incorrectas" }, [loginRequest m]) ∧
    login m .netError =
      ({ m with error := some "Error de conexion" }, [loginRequest m]) ∧
    login m (.response true tok) =
      (m, [loginRequest m, .setItem "token" tok, .navigate "/home"]) :=
  ⟨rfl, rfl, rfl⟩

/-- Claim C8: a non-success response to any mutating Inventory call is
silently ignored — product save and both catalog saves leave the state
entirely unchanged (the state has no error field to set), and a
deactivate (whose response is never read) leaves the form, the edit
mode and both catalog sub-forms unchanged. -/
theorem C8_mutation_failure_silent (token : Option String) (st : InvState)
    (fr : Option (List Product)) (cr : Option CatalogsData) (p : Product) (d : Bool) :
    (saveProduct token st false fr).1 = st ∧
    (saveLinea token st false cr).1 = st ∧
    (saveSegmento token st false cr).1 = st ∧
    (deactivateProduct token st p d fr).1.form = st.form ∧
    (deactivateProduct token st p d fr).1.isEditing = st.isEditing ∧
    (deactivateProduct token st p d fr).1.editingId = st.editingId ∧
    (deactivateProduct token st p d fr).1.lineaForm = st.lineaForm ∧
    (deactivateProduct token st p d fr).1.segmentoForm = st.segmentoForm := by
  refine ⟨rfl, rfl, rfl, ?_, ?_, ?_, ?_, ?_⟩ <;> cases fr <;> rfl

/-- Claim C9: the remember checkbox is never used — two login
submissions that differ only in the remember flag produce the same
request payload, the same stored token and navigation (the same event
list) and the same displayed error. -/
theorem C9_remember_flag_unused (m : LoginModel) (b1 b2 : Bool) (resp : LoginResponse) :
    (login { m with remember := b1 } resp).2 = (login { m with remember := b2 } resp).2 ∧
    (login { m with remember := b1 } resp).1.error =
      (login { m with remember := b2 } resp).1.error := by
  cases resp with
  | netError => exact ⟨rfl, rfl⟩
  | response ok tok => cases ok <;> exact ⟨rfl, rfl⟩

/-- Claim C3: when the first role name of the profile response is
administrador, the branch-switch controls are shown (canChooseBranch
holds on the mounted data) and no logout happens; for any other first
role name the view immediately logs the user out (token removed,
navigate to login). -/
theorem C3_admin_role_gate (t : String) (data : Profile) (r : String)
    (h : (data.roles.map RoleEntry.name).head? = some r) :
    (r = "administrador" →
      canChooseBranch (homeMounted (some t) (.success data)).1.role = true ∧
      (homeMounted (some t) (.success data)).2 = [meRequest t]) ∧
    (r ≠ "administrador" →
      (homeMounted (some t) (.success data)).2 =
        [meRequest t, .removeItem "token", .navigate "/login"]) := by
  have hrole : roleOfProfile data = if r != "" then r else "usuario" := by
    unfold roleOfProfile
    rw [h]
  constructor
  · intro hr
    subst hr
    have hadm : roleOfProfile data = "administrador" := by
      rw [hrole]; decide
    constructor
    · simp [homeMounted, hadm, homeSuccessData, canChooseBranch]
    · simp [homeMounted, hadm]
  · intro hr
    have hnr : roleOfProfile data ≠ "administrador" := by
      rw [hrole]
      split
      · exact hr
      · decide
    have hbne : (roleOfProfile data != "administrador") = true := bne_iff_ne.mpr hnr
    simp [homeMounted, hbne, homeLogoutEvents]

/-- Claim C3, witness: the administrador profile keeps the session and
exposes the branch controls. -/
theorem C3_admin_role_gate_witness :
    canChooseBranch (homeMounted (some "tok") (.success adminProfile)).1.role = true ∧
    (homeMounted (some "tok") (.success adminProfile)).2 = [meRequest "tok"] :=
  (C3_admin_role_gate "tok" adminProfile "administrador" rfl).1 rfl

/-- Claim C6: in edit mode the save request is a PUT to the editing
record's identifier endpoint and its payload omits cod_producto; in
create mode it is a POST to the collection endpoint whose payload
carries cod_producto. -/
theorem C6_update_put_omits_code (stE stC : InvState) (i : Nat)
    (h1 : stE.isEditing = true) (h2 : stE.editingId = some i)
    (h3 : stC.isEditing = false) :
    saveProductMethod stE = "PUT" ∧
    saveProductUrl stE = productsBaseUrl ++ "/" ++ toString i ∧
    (saveProductPayload stE).lookup "cod_producto" = none ∧
    saveProductMethod stC = "POST" ∧
    saveProductUrl stC = productsBaseUrl ∧
    (saveProductPayload stC).lookup "cod_producto" =
      some (.str stC.form.cod_producto) := by
  refine ⟨?_, ?_, ?_, ?_, ?_, ?_⟩
  · simp [saveProductMethod, h1]
  · simp [saveProductUrl, h1, h2, editingIdText]
  · simp only [saveProductPayload, h1, if_true]
    rfl
  · simp [saveProductMethod, h3]
  · simp [saveProductUrl, h3]
  · simp only [saveProductPayload, h3, if_false]
    rfl

/-- Claim C6, witness: the concrete edit state emits a PUT to record 5
without the code field, the initial state a POST with it. -/
theorem C6_update_put_omits_code_witness :
    saveProductMethod exEditState = "PUT" ∧
    saveProductUrl exEditState = productsBaseUrl ++ "/" ++ toString 5 ∧
    (saveProductPayload exEditState).lookup "cod_producto" = none ∧
    saveProductMethod initialInvState = "POST" ∧
    saveProductUrl initialInvState = productsBaseUrl ∧
    (saveProductPayload initialInvState).lookup "cod_producto" =
      some (.str initialInvState.form.cod_producto) :=
  C6_update_put_omits_code exEditState initialInvState 5 rfl rfl rfl

/-- Claim C7, counterexample: the query b-space-c keeps a product whose
code is ab and description is cd, because the filter tests the
space-joined concatenation, although no single field of the product
contains the query — refuting the claim that the result is exactly the
products one of whose fields contains the query. -/
theorem C7_query_spans_fields :
    filteredProducts [exProduct] "b c" = [exProduct] ∧
    fieldMatchQuery "b c" exProduct = false := by
  refine ⟨?_, ?_⟩ <;> decide

/-- On the empty query the filter predicate accepts everything. -/
theorem codeMatchQuery_empty : codeMatchQuery "" = fun _ => true := by
  funext p
  simp [codeMatchQuery]

/-- Claim C7, amended: the local filter is a pure function of the
fetched list and the search box — an empty or whitespace-only query
returns the full list unchanged, and otherwise the result is exactly
the sublist of products whose space-joined, lowercased field string
contains the trimmed, lowercased query. -/
theorem C7_amended_joined_filter (ps : List Product) (s ws : String)
    (hws : trimStr ws = "") :
    filteredProducts ps s = ps.filter (codeMatchQuery (lowerStr (trimStr s))) ∧
    List.Sublist (filteredProducts ps s) ps ∧
    filteredProducts ps ws = ps := by
  have h1 : filteredProducts ps s = ps.filter (codeMatchQuery (lowerStr (trimStr s))) := by
    unfold filteredProducts
    by_cases hq : lowerStr (trimStr s) = ""
    · rw [if_pos hq, hq, codeMatchQuery_empty, List.filter_true]
    · have hb : (lowerStr (trimStr s) == "") = false := beq_eq_false_iff_ne.mpr hq
      have hfun : codeMatchQuery (lowerStr (trimStr s)) =
          fun p => strContainsSub (joinValues p) (lowerStr (trimStr s)) := by
        funext p
        simp [codeMatchQuery, hb]
      rw [if_neg hq, hfun]
  refine ⟨h1, ?_, ?_⟩
  · rw [h1]
    exact List.filter_sublist ps
  · have h0 : lowerStr (trimStr ws) = "" := by
      rw [hws]
      rfl
    simp [filteredProducts, h0]

/-- Claim C7, witness: a non-trivial query filters the concrete list as
the joined predicate says, and a whitespace-only query returns it
unchanged. -/
theorem C7_amended_joined_filter_witness :
    filteredProducts [exProduct] "AB" =
      List.filter (codeMatchQuery (lowerStr (trimStr "AB"))) [exProduct] ∧
    List.Sublist (filteredProducts [exProduct] "AB") [exProduct] ∧
    filteredProducts [exProduct] "  " = [exProduct] :=
  C7_amended_joined_filter [exProduct] "AB" "  " rfl

/-- Claim C10: every save payload sends a falsy line or segment
selection as null — an empty-string selection is looked up as null in
the JSON body, and neither field is ever sent as the empty string. -/
theorem C10_empty_selection_sent_as_null (st : InvState) :
    (st.form.linea_id = JVal.str "" →
      (saveProductPayload st).lookup "linea_id" = some JVal.null) ∧
    (st.form.segmento_id = JVal.str "" →
      (saveProductPayload st).lookup "segmento_id" = some JVal.null) ∧
    (saveProductPayload st).lookup "linea_id" ≠ some (JVal.str "") ∧
    (saveProductPayload st).lookup "segmento_id" ≠ some (JVal.str "") := by
  have hl : (saveProductPayload st).lookup "linea_id" =
      some (jsOr st.form.linea_id .null) := by
    cases hE : st.isEditing <;> simp only [saveProductPayload, hE, if_true, if_false] <;> rfl
  have hsg : (saveProductPayload st).lookup "segmento_id" =
      some (jsOr st.form.segmento_id .null) := by
    cases hE : st.isEditing <;> simp only [saveProductPayload, hE, if_true, if_false] <;> rfl
  have hnull : ∀ v : JVal, jsOr v JVal.null ≠ JVal.str "" := by
    intro v
    cases v with
    | null => simp [jsOr, JVal.truthy]
    | str s =>
      by_cases hs : s = ""
      · subst hs
        simp [jsOr, JVal.truthy]
      · simp [jsOr, JVal.truthy, hs]
    | num q => by_cases hq : q = 0 <;> simp [jsOr, JVal.truthy, hq]
    | bool b => cases b <;> simp [jsOr, JVal.truthy]
  refine ⟨?_, ?_, ?_, ?_⟩
  · intro h
    rw [hl, h]
    rfl
  · intro h
    rw [hsg, h]
    rfl
  · rw [hl]
    intro hcon
    exact hnull _ (Option.some.inj hcon)
  · rw [hsg]
    intro hcon
    exact hnull _ (Option.some.inj hcon)

/-- Claim C10, witness: the initial state has both selections at the
empty string and its payload carries null for both. -/
theorem C10_empty_selection_sent_as_null_witness :
    (saveProductPayload initialInvState).lookup "linea_id" = some JVal.null ∧
    (saveProductPayload initialInvState).lookup "segmento_id" = some JVal.null :=
  ⟨(C10_empty_selection_sent_as_null initialInvState).1 rfl,
   (C10_empty_selection_sent_as_null initialInvState).2.1 rfl⟩

end HollyPacas
